import Mathlib

/-!
Shallow embedding of `src/script.mjs` from the
`sgnl-actions/hashicorp-boundary-cancel-sessions` repository.

The script is a three-step HTTP workflow (authenticate, read session,
cancel session) plus input validation, error classification into
retryable and fatal kinds, and `halt` / `error` framework handlers.

JavaScript values that flow through the script (parameters, secrets,
JSON request and response bodies) are modelled by the `Json` inductive
together with `Option Json`, where `none` stands for the JavaScript
value `undefined`.  Asynchronous effects are modelled by explicit
passing of a transport function `HttpRequest → HttpResponse` and by
returning the list of performed requests next to the outcome; thrown
exceptions are modelled with `Except`.
-/

namespace Boundary

/-- Model of a JSON-like JavaScript value.  The script only ever
inspects strings, numbers, booleans, null and objects; arrays are not
produced or consumed on any of its data paths, so the model leaves
them out (a non-string, non-scalar value is represented by `obj`). -/
inductive Json where
  | null : Json
  | str (s : String) : Json
  | num (n : Int) : Json
  | bool (b : Bool) : Json
  | obj (fields : List (String × Json)) : Json

/-- JavaScript truthiness of a defined value: `null`, the empty string,
the number 0 and `false` are falsy; objects are truthy. -/
def truthyJ : Json → Bool
  | .null => false
  | .str s => s != ""
  | .num n => n != 0
  | .bool b => b
  | .obj _ => true

/-- JavaScript truthiness where `none` is `undefined` (falsy). -/
def truthy : Option Json → Bool
  | none => false
  | some j => truthyJ j

/-- Result of the JavaScript `typeof` operator on a modelled value
(`none` is `undefined`; `null` and objects report "object"). -/
def typeofOpt : Option Json → String
  | none => "undefined"
  | some .null => "object"
  | some (.str _) => "string"
  | some (.num _) => "number"
  | some (.bool _) => "boolean"
  | some (.obj _) => "object"

/-- First-match lookup of a key in an object's field list. -/
def lookupField : List (String × Json) → String → Option Json
  | [], _ => none
  | (k, v) :: rest, key => if k == key then some v else lookupField rest key

/-- JavaScript property access `j.key`: defined only on objects, every
other receiver yields `undefined` (`none`). -/
def getProp : Json → String → Option Json
  | .obj fields, key => lookupField fields key
  | _, _ => none

/-- JavaScript optional chaining `v?.key`: short-circuits to
`undefined` when the receiver is `undefined` or `null`. -/
def optChain (v : Option Json) (key : String) : Option Json :=
  match v with
  | none => none
  | some .null => none
  | some j => getProp j key

/-- The string a JavaScript template literal produces for a value
(`String(v)` conversion). -/
def templateStr : Json → String
  | .null => "null"
  | .str s => s
  | .num n => toString n
  | .bool b => if b then "true" else "false"
  | .obj _ => "[object Object]"

/-- The string value of an `Option Json` expected to hold a string
(used after validation has established `typeof v = "string"`). -/
def asString : Option Json → String
  | some (.str s) => s
  | _ => ""

/-- A defined JavaScript value out of an optional one (used after a
truthiness check has established the value is present). -/
def jsVal (v : Option Json) : Json := v.getD .null

/-- Classification of a thrown error: the script's `RetryableError`
and `FatalError` classes, or a plain unclassified `Error`. -/
inductive ErrClass where
  | retryableError : ErrClass
  | fatalError : ErrClass
  | genericError : ErrClass
deriving DecidableEq

/-- A thrown JavaScript error: its class and its message. -/
structure JsError where
  cls : ErrClass
  message : String

/-- The `retryable` field the script's error classes set: `true` on
`RetryableError`, `false` on `FatalError`, absent on a plain error. -/
def JsError.retryable (e : JsError) : Option Bool :=
  match e.cls with
  | .retryableError => some true
  | .fatalError => some false
  | .genericError => none

/-- The class of the error an `Except` outcome carries, if any. -/
def errClassOf {α : Type} : Except JsError α → Option ErrClass
  | .error e => some e.cls
  | .ok _ => none

/-- An HTTP request as the script assembles it for `fetch`. -/
structure HttpRequest where
  url : String
  method : String
  headers : List (String × String)
  body : Option Json

/-- An HTTP response as the script consumes it: status, status text,
raw text body and parsed JSON body. -/
structure HttpResponse where
  status : Nat
  statusText : String
  bodyText : String
  jsonBody : Json

/-- The `ok` flag of a fetch response: status in the 2xx range. -/
def HttpResponse.ok (r : HttpResponse) : Bool :=
  decide (200 ≤ r.status) && decide (r.status ≤ 299)

/-- A transport: what the mocked or real `fetch` answers per request. -/
def Transport : Type := HttpRequest → HttpResponse

/-- Hexadecimal digit characters used by percent-encoding (uppercase). -/
def hexDigit (n : Nat) : Char :=
  if n < 10 then Char.ofNat (48 + n) else Char.ofNat (55 + n)

/-- UTF-8 byte sequence of a character. -/
def utf8Bytes (c : Char) : List Nat :=
  let n := c.toNat
  if n < 0x80 then [n]
  else if n < 0x800 then
    [0xC0 ||| (n >>> 6), 0x80 ||| (n &&& 0x3F)]
  else if n < 0x10000 then
    [0xE0 ||| (n >>> 12), 0x80 ||| ((n >>> 6) &&& 0x3F), 0x80 ||| (n &&& 0x3F)]
  else
    [0xF0 ||| (n >>> 18), 0x80 ||| ((n >>> 12) &&& 0x3F),
     0x80 ||| ((n >>> 6) &&& 0x3F), 0x80 ||| (n &&& 0x3F)]

/-- Percent-encoding of one byte, as `%XY` with uppercase hex digits. -/
def percentByte (b : Nat) : String :=
  "%" ++ (hexDigit (b / 16)).toString ++ (hexDigit (b % 16)).toString

/-- Characters `encodeURIComponent` leaves unescaped. -/
def isUnreservedURIChar (c : Char) : Bool :=
  c.isAlphanum || ['-', '_', '.', '!', '~', '*', '\'', '(', ')'].contains c

/-- JavaScript `encodeURIComponent`: unreserved characters kept,
every other character percent-encoded byte by byte from UTF-8. -/
def encodeURIComponent (s : String) : String :=
  String.join (s.toList.map (fun c =>
    if isUnreservedURIChar c then c.toString
    else String.join ((utf8Bytes c).map percentByte)))

/-- Modelled from the spec: the identifying client header value
`SGNL_USER_AGENT` exported by the `@sgnl-actions/utils` package, which
is not under `src/`.  Per the spec, every request sets "an identifying
client header"; its exact value is never inspected by the script. -/
def SGNL_USER_AGENT : String := "sgnl-actions/hashicorp-boundary-cancel-sessions"

/-- The job input parameters object: `sessionId` and `authMethodId`
for `invoke`, `address` consumed by the base-URL resolution, and
`reason` consumed by `halt`.  Absent fields are `none`. -/
structure Params where
  sessionId : Option Json
  authMethodId : Option Json
  address : Option Json
  reason : Option Json

/-- The execution context: `secrets` and `environment` are arbitrary
JavaScript values accessed via optional chaining in the script. -/
structure Context where
  secrets : Option Json
  environment : Option Json

/-- Code points the JavaScript `trim` method removes: ASCII
whitespace, no-break space, the Unicode space separators, line and
paragraph separators and the byte-order mark. -/
def isJsWhitespace (c : Char) : Bool :=
  [9, 10, 11, 12, 13, 32, 160, 0x1680, 0x2000, 0x2001, 0x2002, 0x2003,
   0x2004, 0x2005, 0x2006, 0x2007, 0x2008, 0x2009, 0x200A, 0x2028,
   0x2029, 0x202F, 0x205F, 0x3000, 0xFEFF].contains c.toNat

/-- The JavaScript `trim` method: leading and trailing whitespace
removed. -/
def jsTrim (s : String) : String :=
  ⟨((s.data.dropWhile isJsWhitespace).reverse.dropWhile isJsWhitespace).reverse⟩

/-- The condition under which `validateInputs` rejects one parameter:
falsy, not a string, or blank after trimming whitespace (mirrors
`!p || typeof p !== 'string' || p.trim() === ''`). -/
def invalidStrParam (v : Option Json) : Bool :=
  !truthy v || typeofOpt v != "string" ||
    (match v with | some (.str s) => jsTrim s == "" | _ => false)

/-- Embedding of `validateInputs` from `src/script.mjs`: throws a
`FatalError` naming the first invalid identifier parameter. -/
def validateInputs (params : Params) : Except JsError Unit :=
  if invalidStrParam params.sessionId then
    .error ⟨.fatalError, "Invalid or missing sessionId parameter"⟩
  else if invalidStrParam params.authMethodId then
    .error ⟨.fatalError, "Invalid or missing authMethodId parameter"⟩
  else
    .ok ()

/-- Removal of one trailing slash, the normalization the spec requires
of the resolved base URL. -/
def stripTrailingSlash (s : String) : String :=
  match s.data.getLast? with
  | some '/' => ⟨s.data.dropLast⟩
  | _ => s

/-- Modelled from the spec: `getBaseURL` from the `@sgnl-actions/utils`
package, which is not under `src/`.  Per the spec, the base URL is
"resolved from either an explicit parameter or an environment-style
setting; absence is a fatal configuration error", normalized to carry
no trailing slash; the message is the one the repository's test suite
expects.  The raised error is a plain unclassified `Error`: the utils
package cannot construct the script's module-local `FatalError` class,
so the orchestrator's catch-all wrap classifies it. -/
def getBaseURL (params : Params) (context : Context) : Except JsError String :=
  if truthy params.address then
    .ok (stripTrailingSlash (templateStr (jsVal params.address)))
  else if truthy (optChain context.environment "ADDRESS") then
    .ok (stripTrailingSlash (templateStr (jsVal (optChain context.environment "ADDRESS"))))
  else
    .error ⟨.genericError,
      "No URL specified. Provide address parameter or ADDRESS environment variable"⟩

/-- The request `authenticate` sends: POST to the auth-method's
authenticate sub-resource with the credential attributes as body. -/
def mkAuthRequest (authMethodId : String) (username password : Json)
    (baseUrl : String) : HttpRequest :=
  { url := baseUrl ++ "/v1/auth-methods/" ++ encodeURIComponent authMethodId
      ++ ":authenticate"
  , method := "POST"
  , headers := [("Content-Type", "application/json"),
                ("User-Agent", SGNL_USER_AGENT)]
  , body := some (.obj [("attributes",
      .obj [("login_name", username), ("password", password)])]) }

/-- The request `getSession` sends: authorized GET of the session. -/
def mkGetSessionRequest (sessionId : String) (token : Json)
    (baseUrl : String) : HttpRequest :=
  { url := baseUrl ++ "/v1/sessions/" ++ encodeURIComponent sessionId
  , method := "GET"
  , headers := [("Authorization", "Bearer " ++ templateStr token),
                ("Content-Type", "application/json"),
                ("User-Agent", SGNL_USER_AGENT)]
  , body := none }

/-- The request `cancelSession` sends: authorized POST to the cancel
sub-resource carrying the session id and version. -/
def mkCancelRequest (sessionId : String) (version token : Json)
    (baseUrl : String) : HttpRequest :=
  { url := baseUrl ++ "/v1/sessions/" ++ encodeURIComponent sessionId ++ ":cancel"
  , method := "POST"
  , headers := [("Authorization", "Bearer " ++ templateStr token),
                ("Content-Type", "application/json"),
                ("User-Agent", SGNL_USER_AGENT)]
  , body := some (.obj [("id", .str sessionId), ("version", version)]) }

/-- How `authenticate` turns the fetch response into a token or a
thrown error (the status classification and token extraction of
`src/script.mjs` lines 44-68). -/
def authOutcome (r : HttpResponse) : Except JsError Json :=
  if r.ok = false then
    if r.status = 429 then
      .error ⟨.retryableError, "Boundary API rate limit exceeded"⟩
    else if r.status = 401 ∨ r.status = 403 then
      .error ⟨.fatalError, "Invalid username or password"⟩
    else if 500 ≤ r.status then
      .error ⟨.retryableError, "Boundary API server error: " ++ toString r.status⟩
    else
      .error ⟨.fatalError, "Failed to authenticate: " ++ toString r.status
        ++ " " ++ r.statusText ++ " - " ++ r.bodyText⟩
  else if truthy (optChain (getProp r.jsonBody "attributes") "token") = false then
    .error ⟨.fatalError, "No token returned from authentication"⟩
  else
    .ok (jsVal (optChain (getProp r.jsonBody "attributes") "token"))

/-- Embedding of `authenticate`: performs its single request and
classifies the response; first component is the request trace. -/
def authenticate (fetch : Transport) (authMethodId : String)
    (username password : Json) (baseUrl : String) :
    List HttpRequest × Except JsError Json :=
  let req := mkAuthRequest authMethodId username password baseUrl
  ([req], authOutcome (fetch req))

/-- How `getSession` turns the fetch response into a session version
or a thrown error (`src/script.mjs` lines 83-111). -/
def getSessionOutcome (sessionId : String) (r : HttpResponse) :
    Except JsError Json :=
  if r.ok = false then
    if r.status = 429 then
      .error ⟨.retryableError, "Boundary API rate limit exceeded"⟩
    else if r.status = 401 then
      .error ⟨.fatalError, "Invalid or expired authentication token"⟩
    else if r.status = 404 then
      .error ⟨.fatalError, "Session not found: " ++ sessionId⟩
    else if 500 ≤ r.status then
      .error ⟨.retryableError, "Boundary API server error: " ++ toString r.status⟩
    else
      .error ⟨.fatalError, "Failed to get session: " ++ toString r.status
        ++ " " ++ r.statusText ++ " - " ++ r.bodyText⟩
  else if truthy (getProp r.jsonBody "version") = false then
    .error ⟨.fatalError, "No version returned from session"⟩
  else
    .ok (jsVal (getProp r.jsonBody "version"))

/-- Embedding of `getSession`: performs its single request and
classifies the response. -/
def getSession (fetch : Transport) (sessionId : String) (token : Json)
    (baseUrl : String) : List HttpRequest × Except JsError Json :=
  let req := mkGetSessionRequest sessionId token baseUrl
  ([req], getSessionOutcome sessionId (fetch req))

/-- How `cancelSession` turns the fetch response into success or a
thrown error (`src/script.mjs` lines 130-158). -/
def cancelOutcome (sessionId : String) (r : HttpResponse) :
    Except JsError Bool :=
  if r.ok = false then
    if r.status = 429 then
      .error ⟨.retryableError, "Boundary API rate limit exceeded"⟩
    else if r.status = 401 then
      .error ⟨.fatalError, "Invalid or expired authentication token"⟩
    else if r.status = 404 then
      .error ⟨.fatalError, "Session not found: " ++ sessionId⟩
    else if r.status = 409 then
      .error ⟨.fatalError,
        "Session conflict (may already be cancelled): " ++ r.bodyText⟩
    else if 500 ≤ r.status then
      .error ⟨.retryableError, "Boundary API server error: " ++ toString r.status⟩
    else
      .error ⟨.fatalError, "Failed to cancel session: " ++ toString r.status
        ++ " " ++ r.statusText ++ " - " ++ r.bodyText⟩
  else
    .ok true

/-- Embedding of `cancelSession`: performs its single request and
classifies the response. -/
def cancelSession (fetch : Transport) (sessionId : String) (version token : Json)
    (baseUrl : String) : List HttpRequest × Except JsError Bool :=
  let req := mkCancelRequest sessionId version token baseUrl
  ([req], cancelOutcome sessionId (fetch req))

/-- The success record `invoke` returns; `cancelledAt` holds what
`new Date().toISOString()` produced at completion time. -/
structure InvokeResult where
  sessionId : String
  authMethodId : String
  sessionCancelled : Bool
  cancelledAt : String

/-- The body of `invoke`'s try block: validation, secrets check, base
URL resolution, then the three sequential network steps.  `now` is the
ISO-8601 string the runtime clock produces at completion.  The first
component is the list of performed requests in order. -/
def invokeTry (params : Params) (context : Context) (fetch : Transport)
    (now : String) : List HttpRequest × Except JsError InvokeResult :=
  match validateInputs params with
  | .error e => ([], .error e)
  | .ok _ =>
    let sessionId := asString params.sessionId
    let authMethodId := asString params.authMethodId
    if !truthy (optChain context.secrets "BASIC_USERNAME") ||
       !truthy (optChain context.secrets "BASIC_PASSWORD") then
      ([], .error ⟨.fatalError,
        "Missing required secrets: BASIC_USERNAME and BASIC_PASSWORD"⟩)
    else
      match getBaseURL params context with
      | .error e => ([], .error e)
      | .ok baseUrl =>
        let username := jsVal (optChain context.secrets "BASIC_USERNAME")
        let password := jsVal (optChain context.secrets "BASIC_PASSWORD")
        match authenticate fetch authMethodId username password baseUrl with
        | (t1, .error e) => (t1, .error e)
        | (t1, .ok token) =>
          match getSession fetch sessionId token baseUrl with
          | (t2, .error e) => (t1 ++ t2, .error e)
          | (t2, .ok version) =>
            match cancelSession fetch sessionId version token baseUrl with
            | (t3, .error e) => (t1 ++ t2 ++ t3, .error e)
            | (t3, .ok _) =>
              (t1 ++ t2 ++ t3, .ok ⟨sessionId, authMethodId, true, now⟩)

/-- The catch clause of `invoke`: errors already classified as
retryable or fatal pass through unchanged, anything else is wrapped as
a `FatalError` with the "Unexpected error" prefix. -/
def wrapError (e : JsError) : JsError :=
  match e.cls with
  | .retryableError => e
  | .fatalError => e
  | .genericError => ⟨.fatalError, "Unexpected error: " ++ e.message⟩

/-- Embedding of the `invoke` handler: the try body with the catch
clause applied to any thrown error. -/
def invoke (params : Params) (context : Context) (fetch : Transport)
    (now : String) : List HttpRequest × Except JsError InvokeResult :=
  match invokeTry params context fetch now with
  | (t, .error e) => (t, .error (wrapError e))
  | (t, .ok v) => (t, .ok v)

/-- The record the `halt` handler returns; `haltedAt` holds what
`new Date().toISOString()` produced. -/
structure HaltResult where
  sessionId : Json
  authMethodId : Json
  reason : Json
  haltedAt : String
  cleanupCompleted : Bool

/-- The JavaScript `v || d` default: the value when truthy, else `d`. -/
def jsOrDefault (v : Option Json) (d : Json) : Json :=
  match v with
  | some j => if truthyJ j then j else d
  | none => d

/-- Embedding of the `halt` handler: a total function that performs no
network request (it receives no transport) and substitutes "unknown"
for each falsy identifier or reason. -/
def halt (params : Params) (now : String) : HaltResult :=
  { sessionId := jsOrDefault params.sessionId (.str "unknown")
  , authMethodId := jsOrDefault params.authMethodId (.str "unknown")
  , reason := jsOrDefault params.reason (.str "unknown")
  , haltedAt := now
  , cleanupCompleted := true }

/-- Embedding of the `error` handler: re-raises the given error. -/
def errorHandler (e : JsError) : Except JsError Unit := .error e

/-- The authenticate request `invoke` issues, in terms of its inputs. -/
def authReqOf (params : Params) (context : Context) (baseUrl : String) : HttpRequest :=
  mkAuthRequest (asString params.authMethodId)
    (jsVal (optChain context.secrets "BASIC_USERNAME"))
    (jsVal (optChain context.secrets "BASIC_PASSWORD")) baseUrl

/-- The read-session request `invoke` issues, in terms of its inputs. -/
def readReqOf (params : Params) (token : Json) (baseUrl : String) : HttpRequest :=
  mkGetSessionRequest (asString params.sessionId) token baseUrl

/-- The cancel request `invoke` issues, in terms of its inputs. -/
def cancelReqOf (params : Params) (version token : Json) (baseUrl : String) : HttpRequest :=
  mkCancelRequest (asString params.sessionId) version token baseUrl

/-- Valid sample parameters used by concrete witnesses. -/
def sampleParams : Params := ⟨some (.str "s_123"), some (.str "ampw_456"), none, none⟩

/-- Sample context with both secrets and the ADDRESS environment
setting, used by concrete witnesses. -/
def sampleContext : Context :=
  ⟨some (.obj [("BASIC_USERNAME", .str "user"), ("BASIC_PASSWORD", .str "pass")]),
   some (.obj [("ADDRESS", .str "https://boundary.example.com")])⟩

/-- Sample context with secrets but no base URL configuration. -/
def noUrlContext : Context :=
  ⟨some (.obj [("BASIC_USERNAME", .str "user"), ("BASIC_PASSWORD", .str "pass")]),
   none⟩

/-- A 2xx authenticate response carrying a token. -/
def okAuthResponse : HttpResponse :=
  ⟨200, "OK", "", .obj [("attributes", .obj [("token", .str "tok")])]⟩

/-- A 2xx read-session response carrying version 1. -/
def okSessionResponse : HttpResponse := ⟨200, "OK", "", .obj [("version", .num 1)]⟩

/-- A 2xx cancel response. -/
def okCancelResponse : HttpResponse := ⟨200, "OK", "", .obj []⟩

/-- A mocked transport answering 2xx with well-formed bodies for all
three calls (the read request is the only GET; the authenticate
request is the only one without an Authorization header). -/
def happyFetch : Transport := fun req =>
  if req.method = "GET" then okSessionResponse
  else if req.headers.length = 2 then okAuthResponse
  else okCancelResponse

/-- A mocked transport answering 401 to everything. -/
def unauthorizedFetch : Transport := fun _ => ⟨401, "Unauthorized", "", .obj []⟩

/-- A mocked transport where authentication succeeds but the session
read answers 404. -/
def sessionMissingFetch : Transport := fun req =>
  if req.method = "GET" then ⟨404, "Not Found", "", .obj []⟩
  else okAuthResponse

/-- A mocked transport where authentication and the session read
succeed but the cancel answers 409. -/
def conflictFetch : Transport := fun req =>
  if req.method = "GET" then okSessionResponse
  else if req.headers.length = 2 then okAuthResponse
  else ⟨409, "Conflict", "session already canceled", .obj []⟩

/-- C9, counterexample: the claim says the input's `sessionId` is
echoed whenever it is present, but for a present-yet-empty string
(which is falsy) `halt` substitutes "unknown" instead of echoing. -/
theorem halt_echo_counterexample :
    (Params.mk (some (.str "")) (some (.str "am_1")) none (some (.str "shutdown"))).sessionId
      = some (Json.str "") ∧
    (halt (Params.mk (some (.str "")) (some (.str "am_1")) none (some (.str "shutdown")))
      "2024-01-01T00:00:00.000Z").sessionId = Json.str "unknown" :=
  ⟨rfl, rfl⟩

/-- C9, amended: for every input, `halt` (a total function that is
given no transport, hence never raises and performs no remote call)
returns a record with `cleanupCompleted` true and `haltedAt` set to
the runtime clock's output, echoing each of `sessionId`,
`authMethodId` and `reason` when the supplied value is truthy and
substituting the string "unknown" for each one that is missing or
falsy. -/
theorem halt_behavior (params : Params) (now : String) :
    (halt params now).cleanupCompleted = true ∧
    (halt params now).haltedAt = now ∧
    (∀ j, params.sessionId = some j → truthyJ j = true → (halt params now).sessionId = j) ∧
    (∀ j, params.authMethodId = some j → truthyJ j = true → (halt params now).authMethodId = j) ∧
    (∀ j, params.reason = some j → truthyJ j = true → (halt params now).reason = j) ∧
    (truthy params.sessionId = false → (halt params now).sessionId = .str "unknown") ∧
    (truthy params.authMethodId = false → (halt params now).authMethodId = .str "unknown") ∧
    (truthy params.reason = false → (halt params now).reason = .str "unknown") := by
  refine ⟨rfl, rfl, ?_, ?_, ?_, ?_, ?_, ?_⟩
  · intro j hj ht
    simp [halt, jsOrDefault, hj, ht]
  · intro j hj ht
    simp [halt, jsOrDefault, hj, ht]
  · intro j hj ht
    simp [halt, jsOrDefault, hj, ht]
  · intro hf
    rcases hj : params.sessionId with _ | j
    · simp [halt, jsOrDefault, hj]
    · rw [hj] at hf
      simp only [truthy] at hf
      simp [halt, jsOrDefault, hj, hf]
  · intro hf
    rcases hj : params.authMethodId with _ | j
    · simp [halt, jsOrDefault, hj]
    · rw [hj] at hf
      simp only [truthy] at hf
      simp [halt, jsOrDefault, hj, hf]
  · intro hf
    rcases hj : params.reason with _ | j
    · simp [halt, jsOrDefault, hj]
    · rw [hj] at hf
      simp only [truthy] at hf
      simp [halt, jsOrDefault, hj, hf]

/-- Witness for the amended C9 theorem at concrete inputs: a truthy
session id is echoed and a missing reason becomes "unknown". -/
theorem halt_behavior_witness :
    (halt (Params.mk (some (.str "s_1")) (some (.str "am_1")) none none) "T").sessionId
      = Json.str "s_1" ∧
    (halt (Params.mk (some (.str "s_1")) (some (.str "am_1")) none none) "T").reason
      = Json.str "unknown" :=
  ⟨(halt_behavior (Params.mk (some (.str "s_1")) (some (.str "am_1")) none none) "T").2.2.1
      (Json.str "s_1") rfl rfl,
   (halt_behavior (Params.mk (some (.str "s_1")) (some (.str "am_1")) none none) "T").2.2.2.2.2.2.2
      rfl⟩

/-- C10: a 2xx read-session response whose version field is the
integer 0 is rejected with "No version returned from session" (the
presence check is a falsiness check), and a 2xx authenticate response
whose token field is the empty string is rejected with "No token
returned from authentication". -/
theorem falsy_version_and_token
    (r1 r2 : HttpResponse) (sessionId : String)
    (h1 : r1.ok = true) (hv : getProp r1.jsonBody "version" = some (Json.num 0))
    (h2 : r2.ok = true)
    (ht : optChain (getProp r2.jsonBody "attributes") "token" = some (Json.str "")) :
    getSessionOutcome sessionId r1 =
      .error ⟨.fatalError, "No version returned from session"⟩ ∧
    authOutcome r2 = .error ⟨.fatalError, "No token returned from authentication"⟩ := by
  constructor
  · simp [getSessionOutcome, h1, hv, truthy, truthyJ]
  · simp [authOutcome, h2, ht, truthy, truthyJ]

/-- Witness for C10 at concrete responses with version 0 and an empty
token. -/
theorem falsy_version_and_token_witness :
    getSessionOutcome "s_1" ⟨200, "OK", "", .obj [("version", .num 0)]⟩ =
      .error ⟨.fatalError, "No version returned from session"⟩ ∧
    authOutcome ⟨200, "OK", "", .obj [("attributes", .obj [("token", .str "")])]⟩ =
      .error ⟨.fatalError, "No token returned from authentication"⟩ :=
  falsy_version_and_token
    ⟨200, "OK", "", .obj [("version", .num 0)]⟩
    ⟨200, "OK", "", .obj [("attributes", .obj [("token", .str "")])]⟩
    "s_1" rfl rfl rfl rfl

/-- C2: whenever `sessionId` or `authMethodId` is absent, not a
string, or blank after trimming, `invoke` performs no network request
and raises a fatal (non-retryable) error whose message names the first
invalid field (checked in the order sessionId, authMethodId). -/
theorem invoke_invalid_params
    (params : Params) (context : Context) (fetch : Transport) (now : String)
    (h : invalidStrParam params.sessionId = true ∨
      invalidStrParam params.authMethodId = true) :
    (invoke params context fetch now).1 = [] ∧
    ∃ e, (invoke params context fetch now).2 = .error e ∧
      e.cls = ErrClass.fatalError ∧ e.retryable = some false ∧
      (if invalidStrParam params.sessionId = true then
        e.message = "Invalid or missing sessionId parameter"
      else
        e.message = "Invalid or missing authMethodId parameter") := by
  by_cases hs : invalidStrParam params.sessionId = true
  · refine ⟨?_, ⟨⟨.fatalError, "Invalid or missing sessionId parameter"⟩, ?_, rfl, rfl, ?_⟩⟩
    · simp [invoke, invokeTry, validateInputs, hs]
    · simp [invoke, invokeTry, validateInputs, hs, wrapError]
    · simp [hs]
  · have ha : invalidStrParam params.authMethodId = true := by
      rcases h with h | h
      · exact absurd h hs
      · exact h
    have hs' : invalidStrParam params.sessionId = false := by
      revert hs
      cases invalidStrParam params.sessionId <;> simp
    refine ⟨?_, ⟨⟨.fatalError, "Invalid or missing authMethodId parameter"⟩, ?_, rfl, rfl, ?_⟩⟩
    · simp [invoke, invokeTry, validateInputs, hs', ha]
    · simp [invoke, invokeTry, validateInputs, hs', ha, wrapError]
    · simp [hs']

/-- Witness for C2 at a concrete input with `sessionId` absent:
no request is performed and the fatal error names `sessionId`. -/
theorem invoke_invalid_params_witness :
    (invoke (Params.mk none (some (.str "ampw_456")) none none) sampleContext
      happyFetch "T").1 = [] ∧
    ∃ e, (invoke (Params.mk none (some (.str "ampw_456")) none none) sampleContext
        happyFetch "T").2 = .error e ∧
      e.cls = ErrClass.fatalError ∧ e.retryable = some false ∧
      (if invalidStrParam (Params.mk none (some (.str "ampw_456")) none none).sessionId = true then
        e.message = "Invalid or missing sessionId parameter"
      else
        e.message = "Invalid or missing authMethodId parameter") :=
  invoke_invalid_params (Params.mk none (some (.str "ampw_456")) none none)
    sampleContext happyFetch "T" (Or.inl rfl)

/-- C3: when the validated invocation has no base URL configuration
(the explicit address parameter and the ADDRESS environment setting
are both absent or falsy), `invoke` performs no network request and
fails with a fatal error carrying the missing-URL message (the
unclassified resolver error, wrapped by the catch-all clause). -/
theorem invoke_missing_base_url
    (params : Params) (context : Context) (fetch : Transport) (now : String)
    (hv : validateInputs params = .ok ())
    (hu : truthy (optChain context.secrets "BASIC_USERNAME") = true)
    (hp : truthy (optChain context.secrets "BASIC_PASSWORD") = true)
    (ha : truthy params.address = false)
    (he : truthy (optChain context.environment "ADDRESS") = false) :
    invoke params context fetch now =
      ([], .error ⟨.fatalError,
        "Unexpected error: No URL specified. Provide address parameter or ADDRESS environment variable"⟩) := by
  have hb : getBaseURL params context = .error ⟨.genericError,
      "No URL specified. Provide address parameter or ADDRESS environment variable"⟩ := by
    simp [getBaseURL, ha, he]
  simp [invoke, invokeTry, hv, hu, hp, hb, wrapError]

/-- Witness for C3: valid parameters and secrets but no address
configuration anywhere yield the wrapped missing-URL fatal error with
an empty request trace. -/
theorem invoke_missing_base_url_witness :
    invoke sampleParams noUrlContext happyFetch "T" =
      ([], .error ⟨.fatalError,
        "Unexpected error: No URL specified. Provide address parameter or ADDRESS environment variable"⟩) :=
  invoke_missing_base_url sampleParams noUrlContext happyFetch "T" rfl rfl rfl rfl rfl

/-- Reduction of `invokeTry` once validation, the secrets check and
the base URL resolution have succeeded: what remains is the sequential
three-step pipeline. -/
lemma invokeTry_after_setup
    (params : Params) (context : Context) (fetch : Transport) (now : String) (baseUrl : String)
    (hv : validateInputs params = .ok ())
    (hu : truthy (optChain context.secrets "BASIC_USERNAME") = true)
    (hp : truthy (optChain context.secrets "BASIC_PASSWORD") = true)
    (hb : getBaseURL params context = .ok baseUrl) :
    invokeTry params context fetch now =
      (match authenticate fetch (asString params.authMethodId)
          (jsVal (optChain context.secrets "BASIC_USERNAME"))
          (jsVal (optChain context.secrets "BASIC_PASSWORD")) baseUrl with
        | (t1, .error e) => (t1, .error e)
        | (t1, .ok token) =>
          match getSession fetch (asString params.sessionId) token baseUrl with
          | (t2, .error e) => (t1 ++ t2, .error e)
          | (t2, .ok version) =>
            match cancelSession fetch (asString params.sessionId) version token baseUrl with
            | (t3, .error e) => (t1 ++ t2 ++ t3, .error e)
            | (t3, .ok _) => (t1 ++ t2 ++ t3,
                .ok ⟨asString params.sessionId, asString params.authMethodId, true, now⟩)) := by
  unfold invokeTry
  rw [hv, hb]
  simp [hu, hp]

/-- C4: when the authenticate call answers 401 or 403, `invoke` fails
with the fatal "Invalid username or password" error and the request
trace holds the authenticate request only: no session read and no
cancel request is made. -/
theorem invoke_auth_unauthorized
    (params : Params) (context : Context) (fetch : Transport) (now : String)
    (baseUrl : String) (authResp : HttpResponse)
    (hv : validateInputs params = .ok ())
    (hu : truthy (optChain context.secrets "BASIC_USERNAME") = true)
    (hp : truthy (optChain context.secrets "BASIC_PASSWORD") = true)
    (hb : getBaseURL params context = .ok baseUrl)
    (ha : fetch (authReqOf params context baseUrl) = authResp)
    (hstat : authResp.status = 401 ∨ authResp.status = 403) :
    invoke params context fetch now =
      ([authReqOf params context baseUrl],
       .error ⟨.fatalError, "Invalid username or password"⟩) := by
  have hok : authResp.ok = false := by
    rcases hstat with h | h <;> simp [HttpResponse.ok, h]
  have hout : authOutcome authResp = .error ⟨.fatalError, "Invalid username or password"⟩ := by
    rcases hstat with h | h <;> simp [authOutcome, hok, h]
  unfold invoke
  rw [invokeTry_after_setup params context fetch now baseUrl hv hu hp hb]
  simp only [authenticate, authReqOf] at ha ⊢
  rw [ha, hout]
  simp [wrapError]

/-- C5: when authentication succeeds but the session read answers 404,
`invoke` fails with the fatal "Session not found" error referencing
the session id, and the trace holds the authenticate and read
requests only: no cancel request is made. -/
theorem invoke_session_not_found
    (params : Params) (context : Context) (fetch : Transport) (now : String)
    (baseUrl : String) (authResp : HttpResponse) (tok : Json) (sessResp : HttpResponse)
    (hv : validateInputs params = .ok ())
    (hu : truthy (optChain context.secrets "BASIC_USERNAME") = true)
    (hp : truthy (optChain context.secrets "BASIC_PASSWORD") = true)
    (hb : getBaseURL params context = .ok baseUrl)
    (ha : fetch (authReqOf params context baseUrl) = authResp)
    (haOk : authResp.ok = true)
    (htok : optChain (getProp authResp.jsonBody "attributes") "token" = some tok)
    (htokT : truthyJ tok = true)
    (hs : fetch (readReqOf params tok baseUrl) = sessResp)
    (hs404 : sessResp.status = 404) :
    invoke params context fetch now =
      ([authReqOf params context baseUrl, readReqOf params tok baseUrl],
       .error ⟨.fatalError, "Session not found: " ++ asString params.sessionId⟩) := by
  have hAuthOut : authOutcome authResp = .ok tok := by
    simp [authOutcome, haOk, htok, truthy, htokT, jsVal]
  have hsOk : sessResp.ok = false := by
    simp [HttpResponse.ok, hs404]
  have hSessOut : getSessionOutcome (asString params.sessionId) sessResp =
      .error ⟨.fatalError, "Session not found: " ++ asString params.sessionId⟩ := by
    simp [getSessionOutcome, hsOk, hs404]
  unfold invoke
  rw [invokeTry_after_setup params context fetch now baseUrl hv hu hp hb]
  simp only [authenticate, getSession, authReqOf, readReqOf] at ha hs ⊢
  rw [ha, hAuthOut]
  dsimp only
  rw [hs, hSessOut]
  simp [wrapError]

/-- C6: when authentication and the session read succeed but the
cancel call answers 409, `invoke` fails with the fatal (non-retryable)
conflict error whose message says the session may already be
cancelled, exactly one cancel request was issued (no retry by this
component), and no success record is returned. -/
theorem invoke_cancel_conflict
    (params : Params) (context : Context) (fetch : Transport) (now : String)
    (baseUrl : String) (authResp : HttpResponse) (tok : Json)
    (sessResp : HttpResponse) (ver : Json) (cancelResp : HttpResponse)
    (hv : validateInputs params = .ok ())
    (hu : truthy (optChain context.secrets "BASIC_USERNAME") = true)
    (hp : truthy (optChain context.secrets "BASIC_PASSWORD") = true)
    (hb : getBaseURL params context = .ok baseUrl)
    (ha : fetch (authReqOf params context baseUrl) = authResp)
    (haOk : authResp.ok = true)
    (htok : optChain (getProp authResp.jsonBody "attributes") "token" = some tok)
    (htokT : truthyJ tok = true)
    (hs : fetch (readReqOf params tok baseUrl) = sessResp)
    (hsOk : sessResp.ok = true)
    (hver : getProp sessResp.jsonBody "version" = some ver)
    (hverT : truthyJ ver = true)
    (hc : fetch (cancelReqOf params ver tok baseUrl) = cancelResp)
    (hc409 : cancelResp.status = 409) :
    invoke params context fetch now =
      ([authReqOf params context baseUrl, readReqOf params tok baseUrl,
        cancelReqOf params ver tok baseUrl],
       .error ⟨.fatalError,
         "Session conflict (may already be cancelled): " ++ cancelResp.bodyText⟩) := by
  have hAuthOut : authOutcome authResp = .ok tok := by
    simp [authOutcome, haOk, htok, truthy, htokT, jsVal]
  have hSessOut : getSessionOutcome (asString params.sessionId) sessResp = .ok ver := by
    simp [getSessionOutcome, hsOk, hver, truthy, hverT, jsVal]
  have hcOk : cancelResp.ok = false := by
    simp [HttpResponse.ok, hc409]
  have hCancelOut : cancelOutcome (asString params.sessionId) cancelResp =
      .error ⟨.fatalError,
        "Session conflict (may already be cancelled): " ++ cancelResp.bodyText⟩ := by
    simp [cancelOutcome, hcOk, hc409]
  unfold invoke
  rw [invokeTry_after_setup params context fetch now baseUrl hv hu hp hb]
  simp only [authenticate, getSession, cancelSession, authReqOf, readReqOf, cancelReqOf]
    at ha hs hc ⊢
  rw [ha, hAuthOut]
  dsimp only
  rw [hs, hSessOut]
  dsimp only
  rw [hc, hCancelOut]
  simp [wrapError]

/-- C1: when every one of the three calls answers 2xx (with a token
and a version in the respective bodies), `invoke` performs exactly the
three requests authenticate, read, cancel in that order, every request
carries the identifying client header, and the result echoes the input
identifiers with `sessionCancelled` true and `cancelledAt` set to the
runtime clock's ISO-8601 output (modelled by the `now` argument). -/
theorem invoke_happy_path
    (params : Params) (context : Context) (fetch : Transport) (now : String)
    (sid amid baseUrl : String) (authResp : HttpResponse) (tok : Json)
    (sessResp : HttpResponse) (ver : Json) (cancelResp : HttpResponse)
    (hsid : params.sessionId = some (.str sid))
    (hamid : params.authMethodId = some (.str amid))
    (hv : validateInputs params = .ok ())
    (hu : truthy (optChain context.secrets "BASIC_USERNAME") = true)
    (hp : truthy (optChain context.secrets "BASIC_PASSWORD") = true)
    (hb : getBaseURL params context = .ok baseUrl)
    (ha : fetch (authReqOf params context baseUrl) = authResp)
    (haOk : authResp.ok = true)
    (htok : optChain (getProp authResp.jsonBody "attributes") "token" = some tok)
    (htokT : truthyJ tok = true)
    (hs : fetch (readReqOf params tok baseUrl) = sessResp)
    (hsOk : sessResp.ok = true)
    (hver : getProp sessResp.jsonBody "version" = some ver)
    (hverT : truthyJ ver = true)
    (hc : fetch (cancelReqOf params ver tok baseUrl) = cancelResp)
    (hcOk : cancelResp.ok = true) :
    invoke params context fetch now =
      ([authReqOf params context baseUrl, readReqOf params tok baseUrl,
        cancelReqOf params ver tok baseUrl],
       .ok ⟨sid, amid, true, now⟩) ∧
    ∀ req ∈ (invoke params context fetch now).1,
      ("User-Agent", SGNL_USER_AGENT) ∈ req.headers := by
  have hsid' : asString params.sessionId = sid := by rw [hsid]; rfl
  have hamid' : asString params.authMethodId = amid := by rw [hamid]; rfl
  have hAuthOut : authOutcome authResp = .ok tok := by
    simp [authOutcome, haOk, htok, truthy, htokT, jsVal]
  have hSessOut : getSessionOutcome (asString params.sessionId) sessResp = .ok ver := by
    simp [getSessionOutcome, hsOk, hver, truthy, hverT, jsVal]
  have hCancelOut : cancelOutcome (asString params.sessionId) cancelResp = .ok true := by
    simp [cancelOutcome, hcOk]
  have hmain : invoke params context fetch now =
      ([authReqOf params context baseUrl, readReqOf params tok baseUrl,
        cancelReqOf params ver tok baseUrl],
       .ok ⟨sid, amid, true, now⟩) := by
    unfold invoke
    rw [invokeTry_after_setup params context fetch now baseUrl hv hu hp hb]
    simp only [authenticate, getSession, cancelSession, authReqOf, readReqOf, cancelReqOf]
      at ha hs hc ⊢
    rw [ha, hAuthOut]
    dsimp only
    rw [hs, hSessOut]
    dsimp only
    rw [hc, hCancelOut]
    dsimp only
    rw [hsid', hamid']
    simp
  refine ⟨hmain, ?_⟩
  rw [hmain]
  intro req hreq
  simp only [List.mem_cons, List.not_mem_nil, or_false] at hreq
  rcases hreq with rfl | rfl | rfl
  · simp [authReqOf, mkAuthRequest]
  · simp [readReqOf, mkGetSessionRequest]
  · simp [cancelReqOf, mkCancelRequest]

/-- Witness for C4: concrete valid inputs against a transport that
answers 401 yield the fatal credential error after one request. -/
theorem invoke_auth_unauthorized_witness :
    invoke sampleParams sampleContext unauthorizedFetch "T" =
      ([authReqOf sampleParams sampleContext "https://boundary.example.com"],
       .error ⟨.fatalError, "Invalid username or password"⟩) :=
  invoke_auth_unauthorized sampleParams sampleContext unauthorizedFetch "T"
    "https://boundary.example.com" ⟨401, "Unauthorized", "", .obj []⟩
    rfl rfl rfl rfl rfl (Or.inl rfl)

/-- Witness for C5: a transport where authentication succeeds and the
read answers 404 yields the session-not-found error after exactly the
authenticate and read requests. -/
theorem invoke_session_not_found_witness :
    invoke sampleParams sampleContext sessionMissingFetch "T" =
      ([authReqOf sampleParams sampleContext "https://boundary.example.com",
        readReqOf sampleParams (.str "tok") "https://boundary.example.com"],
       .error ⟨.fatalError, "Session not found: " ++ asString sampleParams.sessionId⟩) :=
  invoke_session_not_found sampleParams sampleContext sessionMissingFetch "T"
    "https://boundary.example.com" okAuthResponse (.str "tok")
    ⟨404, "Not Found", "", .obj []⟩
    rfl rfl rfl rfl rfl rfl rfl rfl rfl rfl

/-- Witness for C6: a transport where the cancel answers 409 yields
the fatal conflict error after the three requests. -/
theorem invoke_cancel_conflict_witness :
    invoke sampleParams sampleContext conflictFetch "T" =
      ([authReqOf sampleParams sampleContext "https://boundary.example.com",
        readReqOf sampleParams (.str "tok") "https://boundary.example.com",
        cancelReqOf sampleParams (.num 1) (.str "tok") "https://boundary.example.com"],
       .error ⟨.fatalError,
         "Session conflict (may already be cancelled): session already canceled"⟩) :=
  invoke_cancel_conflict sampleParams sampleContext conflictFetch "T"
    "https://boundary.example.com" okAuthResponse (.str "tok")
    okSessionResponse (.num 1) ⟨409, "Conflict", "session already canceled", .obj []⟩
    rfl rfl rfl rfl rfl rfl rfl rfl rfl rfl rfl rfl rfl rfl

/-- Witness for C1: an all-2xx mocked transport yields exactly the
three ordered requests, each carrying the client header, and the
success record echoing the inputs. -/
theorem invoke_happy_path_witness :
    invoke sampleParams sampleContext happyFetch "T" =
      ([authReqOf sampleParams sampleContext "https://boundary.example.com",
        readReqOf sampleParams (.str "tok") "https://boundary.example.com",
        cancelReqOf sampleParams (.num 1) (.str "tok") "https://boundary.example.com"],
       .ok ⟨"s_123", "ampw_456", true, "T"⟩) ∧
    ∀ req ∈ (invoke sampleParams sampleContext happyFetch "T").1,
      ("User-Agent", SGNL_USER_AGENT) ∈ req.headers :=
  invoke_happy_path sampleParams sampleContext happyFetch "T"
    "s_123" "ampw_456" "https://boundary.example.com" okAuthResponse (.str "tok")
    okSessionResponse (.num 1) okCancelResponse
    rfl rfl rfl rfl rfl rfl rfl rfl rfl rfl rfl rfl rfl rfl rfl rfl

/-- C7: each of the three steps raises a retryable error exactly when
the response status is 429 or at least 500, and every error `invoke`
raises is classified retryable or fatal (never unclassified). -/
theorem error_classification :
    (∀ r : HttpResponse, errClassOf (authOutcome r) = some ErrClass.retryableError ↔
      (r.status = 429 ∨ 500 ≤ r.status)) ∧
    (∀ (sessionId : String) (r : HttpResponse),
      errClassOf (getSessionOutcome sessionId r) = some ErrClass.retryableError ↔
      (r.status = 429 ∨ 500 ≤ r.status)) ∧
    (∀ (sessionId : String) (r : HttpResponse),
      errClassOf (cancelOutcome sessionId r) = some ErrClass.retryableError ↔
      (r.status = 429 ∨ 500 ≤ r.status)) ∧
    (∀ (params : Params) (context : Context) (fetch : Transport) (now : String) (e : JsError),
      (invoke params context fetch now).2 = .error e →
      e.cls = ErrClass.retryableError ∨ e.cls = ErrClass.fatalError) := by
  have hok2xx : ∀ r : HttpResponse, ¬ r.ok = false → 200 ≤ r.status ∧ r.status ≤ 299 := by
    intro r h
    have h' : r.ok = true := by revert h; cases r.ok <;> simp
    simpa [HttpResponse.ok, Bool.and_eq_true, decide_eq_true_eq] using h'
  refine ⟨?_, ?_, ?_, ?_⟩
  · intro r
    by_cases h1 : r.ok = false
    · unfold authOutcome errClassOf
      rw [if_pos h1]
      split_ifs with h2 h3 h4 <;> simp <;> omega
    · have := hok2xx r h1
      unfold authOutcome errClassOf
      rw [if_neg h1]
      split_ifs <;> simp <;> omega
  · intro sessionId r
    by_cases h1 : r.ok = false
    · unfold getSessionOutcome errClassOf
      rw [if_pos h1]
      split_ifs with h2 h3 h4 h5 <;> simp <;> omega
    · have := hok2xx r h1
      unfold getSessionOutcome errClassOf
      rw [if_neg h1]
      split_ifs <;> simp <;> omega
  · intro sessionId r
    by_cases h1 : r.ok = false
    · unfold cancelOutcome errClassOf
      rw [if_pos h1]
      split_ifs with h2 h3 h4 h5 h6 <;> simp <;> omega
    · have := hok2xx r h1
      unfold cancelOutcome errClassOf
      rw [if_neg h1]
      simp
      omega
  · intro params context fetch now e h
    unfold invoke at h
    rcases hx : invokeTry params context fetch now with ⟨t, r⟩
    rw [hx] at h
    cases r with
    | ok v => simp at h
    | error e' =>
      simp only at h
      have he : wrapError e' = e := by injection h
      cases hcls : e'.cls <;> rw [← he] <;> simp [wrapError, hcls]

/-- Witness for C7: a 429 authenticate response is classified
retryable, and a concrete error raised by `invoke` (invalid session
id) is classified retryable or fatal. -/
theorem error_classification_witness :
    errClassOf (authOutcome ⟨429, "Too Many Requests", "", .obj []⟩)
      = some ErrClass.retryableError ∧
    ((JsError.mk ErrClass.fatalError "Invalid or missing sessionId parameter").cls
        = ErrClass.retryableError ∨
     (JsError.mk ErrClass.fatalError "Invalid or missing sessionId parameter").cls
        = ErrClass.fatalError) := by
  constructor
  · exact (error_classification.1 ⟨429, "Too Many Requests", "", .obj []⟩).mpr (Or.inl rfl)
  · exact error_classification.2.2.2 (Params.mk none none none none) (Context.mk none none)
      happyFetch "T" ⟨ErrClass.fatalError, "Invalid or missing sessionId parameter"⟩ rfl

/-- C8: every error raised inside `invoke`'s try body reaches the
caller through `wrapError`, which leaves errors already classified as
retryable or fatal unchanged and wraps any other error as fatal with
the "Unexpected error: " prefix preserving the original message. -/
theorem invoke_error_wrapping
    (params : Params) (context : Context) (fetch : Transport) (now : String) (e : JsError)
    (h : (invokeTry params context fetch now).2 = .error e) :
    (invoke params context fetch now).2 = .error (wrapError e) ∧
    (e.cls = ErrClass.retryableError ∨ e.cls = ErrClass.fatalError → wrapError e = e) ∧
    (e.cls = ErrClass.genericError →
      wrapError e = ⟨ErrClass.fatalError, "Unexpected error: " ++ e.message⟩) := by
  refine ⟨?_, ?_, ?_⟩
  · unfold invoke
    rcases hx : invokeTry params context fetch now with ⟨t, r⟩
    rw [hx] at h
    simp only at h
    rw [h]
  · intro hc
    rcases hc with hc | hc <;> simp [wrapError, hc]
  · intro hc
    simp [wrapError, hc]

/-- Witness for C8: the unclassified missing-URL resolver error is
wrapped as fatal with the "Unexpected error" prefix. -/
theorem invoke_error_wrapping_witness :
    (invoke sampleParams noUrlContext happyFetch "T").2 =
      .error (wrapError ⟨ErrClass.genericError,
        "No URL specified. Provide address parameter or ADDRESS environment variable"⟩) ∧
    wrapError ⟨ErrClass.genericError,
        "No URL specified. Provide address parameter or ADDRESS environment variable"⟩ =
      ⟨ErrClass.fatalError,
        "Unexpected error: No URL specified. Provide address parameter or ADDRESS environment variable"⟩ := by
  have h := invoke_error_wrapping sampleParams noUrlContext happyFetch "T"
    ⟨ErrClass.genericError,
      "No URL specified. Provide address parameter or ADDRESS environment variable"⟩ rfl
  exact ⟨h.1, h.2.2 rfl⟩

end Boundary
